import Mathlib

/-!
# `u54_1.c`: the inline-assembly `doDotProduct` routine and the demo loop

A shallow embedding of `Assembly demo/application/hart1/u54_1.c`.

* C `int8_t` / `int` values are mathematical integers (`Int`); a value read
  back from a register into an `int8_t` variable is wrapped by `wrapInt8`.
* An extended-asm statement is a list of instructions run over the registers
  the compiler bound to its operands (`%0`, `%1`, ...), next to the memory the
  statement could reach (the `"memory"` clobber).  Distinct C variables sit in
  distinct operand registers, and an operand register is private to its asm
  statement.
* Variables the C code reads or binds before writing them (`result`, `count`,
  `temp`) start with an arbitrary value, supplied by the caller of the model.
-/

namespace U54

/-! ## Machine integers -/

/-- Value of an integer after conversion to `int8_t` (two's complement wrap). -/
def wrapInt8 (x : Int) : Int := (x + 128) % 256 - 128

/-- Value of an integer after conversion to `int` (32 bit, two's complement). -/
def wrapInt32 (x : Int) : Int := (x + 2147483648) % 4294967296 - 2147483648

/-- Range of `int8_t`. -/
def isInt8 (x : Int) : Prop := -128 ≤ x ∧ x ≤ 127

instance (x : Int) : Decidable (isInt8 x) := by
  unfold isInt8; exact inferInstance

/-! ## Globals of the translation unit -/

/-- The file-scope variables of `u54_1.c`: `int *sample`, `float* sample2`
(`none` is `NULL`), `int src` and `uint8_t display_buffer[100]` (its contents
as a C string). -/
structure Globals where
  sample : Option Nat
  sample2 : Option Nat
  src : Int
  display_buffer : String
  deriving DecidableEq, Repr

/-! ## Inline assembly -/

/-- The instructions that occur (un-commented) in the asm templates of the
file: `LI %rd, imm` and `NOP`.  `rd` is an operand number. -/
inductive Instr where
  | LI (rd : Nat) (imm : Int)
  | NOP
  deriving DecidableEq, Repr

/-- State an asm statement runs on: the operand registers `%0, %1, ...` and
the memory reachable from the statement. -/
structure Machine (μ : Type) where
  regs : List Int
  mem : μ

/-- One instruction.  `LI` overwrites the register of operand `rd`; `NOP`
does nothing.  Neither is a load or a store. -/
def Instr.exec {μ : Type} : Instr → Machine μ → Machine μ
  | Instr.LI rd imm, m => { m with regs := m.regs.set rd imm }
  | Instr.NOP, m => m

/-- Run an asm template, instruction by instruction (there is no branch
among the un-commented instructions). -/
def runAsm {μ : Type} (prog : List Instr) (m : Machine μ) : Machine μ :=
  prog.foldl (fun st i => i.exec st) m

/-! ## `doDotProduct` -/

/-- Memory a call of `doDotProduct` can reach: the caller's arrays behind the
pointers `a` and `b`, and the globals. -/
structure CallMem where
  a : List Int
  b : List Int
  globals : Globals
  deriving DecidableEq, Repr

/-- Indeterminate initial contents of the locals `result`, `count` and `temp`
of `doDotProduct`, none of which has an initialiser. -/
structure Uninit where
  result : Int
  count : Int
  temp : Int
  deriving DecidableEq, Repr

/-- Outcome of a call of `doDotProduct`: the returned `int8_t` and the memory
as the call leaves it. -/
structure DotResult where
  value : Int
  a : List Int
  b : List Int
  globals : Globals
  deriving DecidableEq, Repr

/-- The first two asm statements of `doDotProduct`, `"LI %0,0"`, each with a
single output operand. -/
def asmLoadZero : List Instr := [Instr.LI 0 0]

/-- The third asm statement of `doDotProduct`: `"LI %5 , 5"` then `"NOP"`
(every other line of the template is commented out). -/
def asmBody : List Instr := [Instr.LI 5 5, Instr.NOP]

/-- The function `int8_t doDotProduct(int8_t a[], int8_t b[], int8_t len)`.

Operands of the third asm statement: `%0` is `result` (`"+r"`), then the
inputs `%1 = count`, `%2 = len`, `%3 = temp`, `%4 = h`, `%5 = g`,
`%6 = result`. -/
def doDotProduct (a b : List Int) (len : Int) (u : Uninit) (gl : Globals) : DotResult :=
  let h : Int := 5
  let g : Int := 7
  -- asm volatile("LI %0,0" : "=r"(result));
  let m1 := runAsm asmLoadZero { regs := [u.result], mem := CallMem.mk a b gl }
  let result := wrapInt8 (m1.regs.getD 0 0)
  -- asm volatile("LI %0,0" : "=r"(count));
  let m2 := runAsm asmLoadZero { regs := [u.count], mem := m1.mem }
  let count := wrapInt8 (m2.regs.getD 0 0)
  -- asm volatile("LI %5 , 5\n" "NOP\n" : "+r"(result) : ... : "memory");
  let m3 := runAsm asmBody
    { regs := [result, count, len, u.temp, h, g, result], mem := m2.mem }
  let result := wrapInt8 (m3.regs.getD 0 0)
  -- return result;
  { value := result, a := m3.mem.a, b := m3.mem.b, globals := m3.mem.globals }

/-- The sum the specification asks of the routine: `Σ a[i]*b[i]` for `i` in
`[0, len)`.  This definition follows the specification's words, not the
source. -/
def dot_product_spec (a b : List Int) (len : Nat) : Int :=
  ((List.range len).map (fun i => a.getD i 0 * b.getD i 0)).sum

/-- Elementwise scaling `k*a` of a vector. -/
def scale (k : Int) (a : List Int) : List Int := a.map (fun x => k * x)

/-! ## The demo loop of `u54_1` -/

/-- What one pass of the `for (;;)` loop of `u54_1` can observe or change
outside its locals: the globals, the RTC update flag, the strings handed to
`MSS_UART_polled_tx_string` (oldest first), the argument lists of the calls of
`doDotProduct` made so far, and the pointers handed to `free`. -/
structure World where
  globals : Globals
  rtcUpdateFlag : Bool
  uart : List String
  dotCalls : List (List Int × List Int × Int)
  freed : List (Option Nat)
  deriving DecidableEq, Repr

/-- What the environment decides during one pass: the results of the two
`malloc` calls, the addresses of the local arrays `a` and `b` with the
rendering `%p` gives an address, the indeterminate locals of `doDotProduct`,
and the indeterminate register bound to `src` in each round of the fill
loop. -/
structure IterEnv where
  mallocSample : Option Nat
  mallocSample2 : Option Nat
  addrA : Nat
  addrB : Nat
  fmtPtr : Nat → String
  uninit : Uninit
  srcReg : Nat → Int

/-- The `%d` conversion of `printf`. -/
def fmtInt (x : Int) : String := toString x

/-- The call `MSS_UART_polled_tx_string(p_uartmap_u54_1, s)`. -/
def MSS_UART_polled_tx_string (w : World) (s : String) : World :=
  { w with uart := w.uart ++ [s] }

/-- The call `snprintf((char *)display_buffer, sizeof(display_buffer), ...)` with the
formatted text `s`: at most `sizeof(display_buffer) - 1 = 99` characters are
stored. -/
def snprintf_display (w : World) (s : String) : World :=
  { w with globals := { w.globals with display_buffer := String.mk (s.data.take 99) } }

/-- The pair `snprintf(display_buffer, ...)`; `MSS_UART_polled_tx_string(...,
display_buffer)` that the loop uses for every formatted line. -/
def printLine (w : World) (s : String) : World :=
  let w1 := snprintf_display w s
  MSS_UART_polled_tx_string w1 w1.globals.display_buffer

/-- The fill loop `for(int i = 0; i < 8; i++) asm("LI %0,0" : "=r"(src));`. -/
def fillLoop (env : IterEnv) (gl : Globals) : Globals :=
  (List.range 8).foldl
    (fun g i =>
      let m := runAsm asmLoadZero { regs := [env.srcReg i], mem := g }
      { m.mem with src := wrapInt32 (m.regs.getD 0 0) })
    gl

/-- The print loop `for(int j = 0; j < 8; j++)` over the arrays `a` and `b`. -/
def printLoop (a b : List Int) (w : World) : World :=
  (List.range 8).foldl
    (fun st (j : Nat) =>
      let st1 := printLine st ("A[" ++ fmtInt j ++ "] = " ++ fmtInt (a.getD j 0) ++ "\r\n")
      printLine st1 ("B[" ++ fmtInt j ++ "] = " ++ fmtInt (b.getD j 0) ++ "\r\n"))
    w

/-- One pass of the body of `for (;;)` in `u54_1`. -/
def u54_1_iteration (env : IterEnv) (w : World) : World :=
  -- rtc_count_updated = MSS_RTC_get_update_flag();
  let rtc_count_updated := w.rtcUpdateFlag
  if rtc_count_updated then
    -- sample = malloc(8 * sizeof(int)); sample2 = malloc(8*sizeof(float));
    let w1 := { w with globals :=
      { w.globals with sample := env.mallocSample, sample2 := env.mallocSample2 } }
    match w1.globals.sample with
    | none =>
      -- tx "Memory allocation failed!"; continue;
      MSS_UART_polled_tx_string w1 "Memory allocation failed!\r\n"
    | some _ =>
      let w2 := { w1 with globals := fillLoop env w1.globals }
      let a : List Int := [0, 0, 0, 0, 1, 1, 1, 1]
      let b : List Int := [8, 7, 6, 5, 4, 3, 2, 1]
      -- int8_t size = sizeof(a)/sizeof(a[0]);
      let size := wrapInt8 a.length
      -- int8_t dotProd = doDotProduct(a,b,size);
      let r := doDotProduct a b size env.uninit w2.globals
      let dotProd := r.value
      let w3 := { w2 with globals := r.globals, dotCalls := w2.dotCalls ++ [(a, b, size)] }
      let w4 := printLoop r.a r.b w3
      let w5 := printLine w4 ("Array A memory address: " ++ env.fmtPtr env.addrA ++ "\r\n")
      let w6 := printLine w5 ("Array B memory address: " ++ env.fmtPtr env.addrB ++ "\r\n")
      let w7 := printLine w6 ("Dot Product of A and B: " ++ fmtInt dotProd ++ "\r\n")
      -- free(sample);
      let w8 := { w7 with freed := w7.freed ++ [w7.globals.sample] }
      -- MSS_RTC_get_calendar_count(&calendar_count); MSS_RTC_clear_update_flag();
      { w8 with rtcUpdateFlag := false }
  else
    w

/-- The lines the print loop transmits for the arrays of the demo. -/
def demoArrayLines : List String :=
  ["A[0] = 0\r\n", "B[0] = 8\r\n", "A[1] = 0\r\n", "B[1] = 7\r\n",
   "A[2] = 0\r\n", "B[2] = 6\r\n", "A[3] = 0\r\n", "B[3] = 5\r\n",
   "A[4] = 1\r\n", "B[4] = 4\r\n", "A[5] = 1\r\n", "B[5] = 3\r\n",
   "A[6] = 1\r\n", "B[6] = 2\r\n", "A[7] = 1\r\n", "B[7] = 1\r\n"]

/-- An environment in which both allocations succeed. -/
def envOk : IterEnv :=
  { mallocSample := some 4096, mallocSample2 := some 8192, addrA := 16, addrB := 8,
    fmtPtr := fun n => "0x" ++ toString n, uninit := ⟨3, -4, 77⟩, srcReg := fun i => i + 9 }

/-- An environment in which the allocation of `sample` fails. -/
def envFail : IterEnv :=
  { envOk with mallocSample := none }

/-- A world with the RTC update flag raised and nothing transmitted yet. -/
def world0 : World :=
  { globals := ⟨none, none, 0, ""⟩, rtcUpdateFlag := true, uart := [], dotCalls := [],
    freed := [] }

/-! ## Basic facts about `doDotProduct` -/

theorem doDotProduct_value (a b : List Int) (len : Int) (u : Uninit) (gl : Globals) :
    (doDotProduct a b len u gl).value = 0 := by
  simp [doDotProduct, runAsm, asmLoadZero, asmBody, Instr.exec, wrapInt8]

theorem doDotProduct_mem (a b : List Int) (len : Int) (u : Uninit) (gl : Globals) :
    (doDotProduct a b len u gl).a = a ∧ (doDotProduct a b len u gl).b = b ∧
      (doDotProduct a b len u gl).globals = gl := by
  simp [doDotProduct, runAsm, asmLoadZero, asmBody, Instr.exec]

/-! ## Basic facts about the demo loop -/

theorem fillLoop_eq (env : IterEnv) (gl : Globals) :
    fillLoop env gl = { gl with src := 0 } := by
  simp [fillLoop, List.range, List.range.loop, runAsm, asmLoadZero, Instr.exec, wrapInt32]

theorem printLoop_uart (a b : List Int) (w : World) :
    (printLoop a b w).uart = w.uart ++ (List.range 8).flatMap (fun j =>
      [String.mk (("A[" ++ fmtInt j ++ "] = " ++ fmtInt (a.getD j 0) ++ "\r\n").data.take 99),
       String.mk (("B[" ++ fmtInt j ++ "] = " ++ fmtInt (b.getD j 0) ++ "\r\n").data.take 99)]) := by
  simp [printLoop, List.range, List.range.loop, printLine, snprintf_display,
    MSS_UART_polled_tx_string]

theorem printLoop_demo_uart (w : World) :
    (printLoop [0, 0, 0, 0, 1, 1, 1, 1] [8, 7, 6, 5, 4, 3, 2, 1] w).uart
      = w.uart ++ demoArrayLines := by
  rw [printLoop_uart]
  congr 1

theorem printLoop_frame (a b : List Int) (w : World) :
    (printLoop a b w).rtcUpdateFlag = w.rtcUpdateFlag ∧
      (printLoop a b w).dotCalls = w.dotCalls ∧ (printLoop a b w).freed = w.freed := by
  simp [printLoop, List.range, List.range.loop, printLine, snprintf_display,
    MSS_UART_polled_tx_string]

/-! ## The claims -/

/-- C1: the claim is that `doDotProduct(a, b, len)` returns the sum of
`a[i]*b[i]` over `i` in `[0, len)`.  On `a = [1]`, `b = [1]`, `len = 1` the
routine returns `0`, whatever its uninitialised locals and the globals hold,
while the sum is `1`. -/
theorem doDotProduct_misses_sum (u : Uninit) (gl : Globals) :
    (doDotProduct [1] [1] 1 u gl).value = 0 ∧ dot_product_spec [1] [1] 1 = 1 ∧
      (doDotProduct [1] [1] 1 u gl).value ≠ dot_product_spec [1] [1] 1 := by
  have hv := doDotProduct_value [1] [1] 1 u gl
  have hs : dot_product_spec [1] [1] 1 = 1 := by decide
  refine ⟨hv, hs, ?_⟩
  rw [hv, hs]
  decide

/-- C2: the claim is that on the demo's hard-coded arrays the routine returns
`10`, which the loop then prints.  The routine returns `0` there (the sum
being `10`), and the last line a pass of the loop transmits is
`"Dot Product of A and B: 0\r\n"`. -/
theorem doDotProduct_demo_inputs (u : Uninit) (gl : Globals) :
    (doDotProduct [0, 0, 0, 0, 1, 1, 1, 1] [8, 7, 6, 5, 4, 3, 2, 1] 8 u gl).value = 0 ∧
      dot_product_spec [0, 0, 0, 0, 1, 1, 1, 1] [8, 7, 6, 5, 4, 3, 2, 1] 8 = 10 ∧
      (u54_1_iteration envOk world0).uart.getLast? = some "Dot Product of A and B: 0\r\n" ∧
      (u54_1_iteration envOk world0).dotCalls
        = [([0, 0, 0, 0, 1, 1, 1, 1], [8, 7, 6, 5, 4, 3, 2, 1], 8)] := by
  refine ⟨doDotProduct_value _ _ _ u gl, by decide, by decide, by decide⟩

/-- C3: the claim is that on `a = [1,2,3,4,5,6,7,8]`, `b = [8,7,6,5,4,3,2,1]`,
`len = 8` the routine returns `120`.  The sum is `120` and fits `int8_t`, but
the routine returns `0`. -/
theorem doDotProduct_scenario2 (u : Uninit) (gl : Globals) :
    (doDotProduct [1, 2, 3, 4, 5, 6, 7, 8] [8, 7, 6, 5, 4, 3, 2, 1] 8 u gl).value = 0 ∧
      dot_product_spec [1, 2, 3, 4, 5, 6, 7, 8] [8, 7, 6, 5, 4, 3, 2, 1] 8 = 120 ∧
      isInt8 120 ∧ wrapInt8 120 = 120 := by
  refine ⟨doDotProduct_value _ _ _ u gl, by decide, by decide, by decide⟩

/-- C4: when a pass of the demo loop starts with the RTC update flag raised
and the allocation of `sample` fails, the pass transmits exactly one string,
`"Memory allocation failed!\r\n"`, and nothing else happens: `doDotProduct`
is not called, nothing is freed, `src` and `display_buffer` are untouched and
the RTC update flag stays raised. -/
theorem u54_1_iteration_alloc_failure (env : IterEnv) (w : World)
    (hflag : w.rtcUpdateFlag = true) (hnull : env.mallocSample = none) :
    (u54_1_iteration env w).uart = w.uart ++ ["Memory allocation failed!\r\n"] ∧
      (u54_1_iteration env w).dotCalls = w.dotCalls ∧
      (u54_1_iteration env w).rtcUpdateFlag = true ∧
      (u54_1_iteration env w).freed = w.freed ∧
      (u54_1_iteration env w).globals.src = w.globals.src ∧
      (u54_1_iteration env w).globals.display_buffer = w.globals.display_buffer := by
  simp [u54_1_iteration, hflag, hnull, MSS_UART_polled_tx_string]

theorem u54_1_iteration_alloc_failure_witness :
    world0.rtcUpdateFlag = true ∧ envFail.mallocSample = none ∧
      (u54_1_iteration envFail world0).uart = world0.uart ++ ["Memory allocation failed!\r\n"] ∧
      (u54_1_iteration envFail world0).dotCalls = world0.dotCalls ∧
      (u54_1_iteration envFail world0).rtcUpdateFlag = true ∧
      (u54_1_iteration envFail world0).freed = world0.freed ∧
      (u54_1_iteration envFail world0).globals.src = world0.globals.src ∧
      (u54_1_iteration envFail world0).globals.display_buffer
        = world0.globals.display_buffer :=
  ⟨rfl, rfl, u54_1_iteration_alloc_failure envFail world0 rfl rfl⟩

/-- C5: the call `doDotProduct(a, b, 0)` returns `0` for all sequences `a` and `b`. -/
theorem doDotProduct_len_zero (a b : List Int) (u : Uninit) (gl : Globals) :
    (doDotProduct a b 0 u gl).value = 0 :=
  doDotProduct_value a b 0 u gl

/-- C6: for sequences `a`, `b` of equal length `n`, `doDotProduct(a, b, n)`
and `doDotProduct(b, a, n)` return the same value, whatever the uninitialised
locals of the two calls hold. -/
theorem doDotProduct_comm (a b : List Int) (n : Nat) (u1 u2 : Uninit) (gl : Globals)
    (_ha : a.length = n) (_hb : b.length = n) :
    (doDotProduct a b n u1 gl).value = (doDotProduct b a n u2 gl).value := by
  rw [doDotProduct_value, doDotProduct_value]

theorem doDotProduct_comm_witness :
    [1, 2, 3].length = 3 ∧ [4, 5, 6].length = 3 ∧
      (doDotProduct [1, 2, 3] [4, 5, 6] (3 : Nat) ⟨1, 2, 3⟩ ⟨none, none, 0, ""⟩).value
        = (doDotProduct [4, 5, 6] [1, 2, 3] (3 : Nat) ⟨9, 8, 7⟩ ⟨none, none, 0, ""⟩).value :=
  ⟨rfl, rfl, doDotProduct_comm [1, 2, 3] [4, 5, 6] 3 ⟨1, 2, 3⟩ ⟨9, 8, 7⟩ ⟨none, none, 0, ""⟩ rfl rfl⟩

/-- C7: for a scalar `k` and sequences `a`, `b` of equal length `n` with every
`k*a[i]` in the range of `int8_t`, `doDotProduct(k*a, b, n)` equals
`k * doDotProduct(a, b, n)`. -/
theorem doDotProduct_homogeneous (k : Int) (a b : List Int) (n : Nat) (u1 u2 : Uninit)
    (gl : Globals) (_ha : a.length = n) (_hb : b.length = n)
    (_hk : ∀ x ∈ a, isInt8 (k * x)) :
    (doDotProduct (scale k a) b n u1 gl).value = k * (doDotProduct a b n u2 gl).value := by
  rw [doDotProduct_value, doDotProduct_value, mul_zero]

theorem doDotProduct_homogeneous_witness :
    [1, 2, 3].length = 3 ∧ [4, 5, 6].length = 3 ∧ (∀ x ∈ [(1 : Int), 2, 3], isInt8 (2 * x)) ∧
      (doDotProduct (scale 2 [1, 2, 3]) [4, 5, 6] (3 : Nat) ⟨1, 2, 3⟩
          ⟨none, none, 0, ""⟩).value
        = 2 * (doDotProduct [1, 2, 3] [4, 5, 6] (3 : Nat) ⟨9, 8, 7⟩ ⟨none, none, 0, ""⟩).value :=
  ⟨rfl, rfl, by decide,
    doDotProduct_homogeneous 2 [1, 2, 3] [4, 5, 6] 3 ⟨1, 2, 3⟩ ⟨9, 8, 7⟩ ⟨none, none, 0, ""⟩
      rfl rfl (by decide)⟩

/-- C8: with `a` the all-zero sequence of length 8 and `b` any sequence of
length 8, `doDotProduct(a, b, 8)` returns `0`. -/
theorem doDotProduct_zero_vector (b : List Int) (u : Uninit) (gl : Globals)
    (_hb : b.length = 8) :
    (doDotProduct (List.replicate 8 0) b 8 u gl).value = 0 :=
  doDotProduct_value _ b 8 u gl

theorem doDotProduct_zero_vector_witness :
    [(8 : Int), 7, 6, 5, 4, 3, 2, 1].length = 8 ∧
      (doDotProduct (List.replicate 8 0) [8, 7, 6, 5, 4, 3, 2, 1] 8 ⟨1, 2, 3⟩
        ⟨none, none, 0, ""⟩).value = 0 :=
  ⟨rfl, doDotProduct_zero_vector [8, 7, 6, 5, 4, 3, 2, 1] ⟨1, 2, 3⟩ ⟨none, none, 0, ""⟩ rfl⟩

/-- C9: the routine `doDotProduct` is deterministic and pure: two calls with the same
`a`, `b` and `len` return the same value whatever the uninitialised locals
(`temp` among them) and the globals hold at each call, and a call leaves the
elements of `a` and `b` and every global as it found them. -/
theorem doDotProduct_deterministic_pure (a b : List Int) (len : Int) (u1 u2 : Uninit)
    (gl1 gl2 : Globals) :
    (doDotProduct a b len u1 gl1).value = (doDotProduct a b len u2 gl2).value ∧
      (doDotProduct a b len u1 gl1).a = a ∧ (doDotProduct a b len u1 gl1).b = b ∧
      (doDotProduct a b len u1 gl1).globals = gl1 := by
  refine ⟨?_, doDotProduct_mem a b len u1 gl1⟩
  rw [doDotProduct_value, doDotProduct_value]

/-- C10: the routine `doDotProduct` returns `0` for every `a`, `b` and `len`; hence a pass
of the demo loop that runs with the RTC update flag raised and `sample`
allocated transmits the sixteen array lines, the two address lines and then
`"Dot Product of A and B: 0\r\n"`. -/
theorem doDotProduct_constant_zero (a b : List Int) (len : Int) (u : Uninit) (gl : Globals)
    (env : IterEnv) (w : World) (p : Nat)
    (hflag : w.rtcUpdateFlag = true) (halloc : env.mallocSample = some p) :
    (doDotProduct a b len u gl).value = 0 ∧
      (u54_1_iteration env w).uart = w.uart ++ demoArrayLines ++
        [String.mk (("Array A memory address: " ++ env.fmtPtr env.addrA ++ "\r\n").data.take 99),
         String.mk (("Array B memory address: " ++ env.fmtPtr env.addrB ++ "\r\n").data.take 99),
         "Dot Product of A and B: 0\r\n"] := by
  refine ⟨doDotProduct_value a b len u gl, ?_⟩
  have hmem := fun (l : Int) (g : Globals) =>
    doDotProduct_mem [0, 0, 0, 0, 1, 1, 1, 1] [8, 7, 6, 5, 4, 3, 2, 1] l env.uninit g
  simp only [u54_1_iteration, hflag, halloc, if_true, printLine, snprintf_display,
    MSS_UART_polled_tx_string, doDotProduct_value, (hmem _ _).1, (hmem _ _).2.1,
    printLoop_demo_uart, List.append_assoc, List.cons_append, List.nil_append]
  congr 1

theorem doDotProduct_constant_zero_witness :
    world0.rtcUpdateFlag = true ∧ envOk.mallocSample = some 4096 ∧
      (doDotProduct [1, 2, 3] [4, 5, 6] 3 ⟨1, 2, 3⟩ ⟨none, none, 0, ""⟩).value = 0 ∧
      (u54_1_iteration envOk world0).uart = world0.uart ++ demoArrayLines ++
        [String.mk (("Array A memory address: " ++ envOk.fmtPtr envOk.addrA
            ++ "\r\n").data.take 99),
         String.mk (("Array B memory address: " ++ envOk.fmtPtr envOk.addrB
            ++ "\r\n").data.take 99),
         "Dot Product of A and B: 0\r\n"] :=
  ⟨rfl, rfl,
    doDotProduct_constant_zero [1, 2, 3] [4, 5, 6] 3 ⟨1, 2, 3⟩ ⟨none, none, 0, ""⟩ envOk world0
      4096 rfl rfl⟩

end U54
